import Mathlib

/-!
Verification of the roadmap request/creation module (`src/roadmaps.rs`).

The module has three parts:
  * a context-window assembly algorithm (`build_message`) that prepends prior
    context strings to a user message under a character-budget configuration,
  * an intent classifier (`is_message_roadmap_request`) that parses the
    upstream reply's textual content as a JSON `RequestingRoadmap` value,
  * a content generator (`create_roadmap`) that wraps the upstream reply's
    textual content verbatim.

The embedding below translates these functions into Lean.  Rust `String::len`
is the UTF-8 byte length, embedded as `String.utf8ByteSize`; `insert_str(0, s)`
on the buffer is string prepending; `Vec::first` is `List.head?`; the
`.unwrap()` on the first choice is modelled by a dedicated `panicked` outcome;
`anyhow::Result` with its three failure sources (the propagated transport
error, `bail!`, and the propagated `serde_json` error) is modelled by a
`RunResult` carrying a `RoadmapError`.  The upstream chat-completion service is
an explicit function parameter, as the spec treats it as an opaque external
collaborator.
-/

/-- Configuration struct `RoadmapConfig` from the source: maximum number of
context messages and maximum total character budget. -/
structure RoadmapConfig where
  context_length : Nat
  message_limit_chars : Nat
deriving DecidableEq, Repr

/-- `RoadmapConfig::default()`: `context_length = 3`, `message_limit_chars = 2048`. -/
def RoadmapConfig.default : RoadmapConfig :=
  ⟨3, 2048⟩

/-- The lazy-static `ROADMAP_CONFIG`, initialized to the default configuration. -/
def ROADMAP_CONFIG : RoadmapConfig :=
  RoadmapConfig.default

/-- Modelled from the spec: the detection system-instruction template is loaded
at process start from the asset file `prompts/detect_roadmap.txt`, which is not
under `src/`; per the spec its exact wording is an external asset.  It is
represented by a fixed string; no claim depends on its contents. -/
def DETECT_ROADMAP_PROMPT : String :=
  "detection system instruction"

/-- Modelled from the spec: the creation system-instruction template is loaded
at process start from the asset file `prompts/create_roadmap_for_user.txt`,
which is not under `src/`; per the spec its exact wording is an external asset.
It is represented by a fixed string; no claim depends on its contents. -/
def CREATE_ROADMAP_PROMPT : String :=
  "creation system instruction"

/-- Message roles of the upstream chat API (`ChatCompletionMessageRole`). -/
inductive ChatCompletionMessageRole where
  | system
  | user
  | assistant
  | function
deriving DecidableEq, Repr

/-- A role-tagged message of the upstream chat API (`ChatCompletionMessage`).
The source only ever sets `role` and `content`; `name` and `function_call` are
always `None`. -/
structure ChatCompletionMessage where
  role : ChatCompletionMessageRole
  content : Option String
  name : Option String
  function_call : Option String
deriving DecidableEq, Repr

/-- One completion choice of the upstream reply; the source reads only its
`message` field. -/
structure ChatCompletionChoice where
  message : ChatCompletionMessage
deriving DecidableEq, Repr

/-- The upstream reply; the source reads only its `choices` field. -/
structure ChatCompletion where
  choices : List ChatCompletionChoice
deriving DecidableEq, Repr

/-- The transport/service error of the upstream client, opaque to this module;
only its presence matters, so it is modelled as a wrapped message. -/
structure OpenAiError where
  message : String
deriving DecidableEq, Repr

/-- `system_message_detection()` from the source. -/
def system_message_detection : ChatCompletionMessage :=
  ⟨ChatCompletionMessageRole.system, some DETECT_ROADMAP_PROMPT, none, none⟩

/-- `system_message_creation()` from the source. -/
def system_message_creation : ChatCompletionMessage :=
  ⟨ChatCompletionMessageRole.system, some CREATE_ROADMAP_PROMPT, none, none⟩

/-- `user_message(message)` from the source. -/
def user_message (message : String) : ChatCompletionMessage :=
  ⟨ChatCompletionMessageRole.user, some message, none, none⟩

/-- The context loop of `build_message` (source lines 76-84).  State:
`message_length` (the running length counter, in UTF-8 bytes, since Rust
`String::len` counts bytes) and `message_buffer`.  Each accepted contextual
message is prepended (`insert_str(0, ..)`); the loop breaks at the first
entry for which `message_length + contextual_message.len() >
message_limit_chars`. -/
def build_message_loop (message_limit_chars : Nat) :
    List String → Nat → String → Nat × String
  | [], message_length, message_buffer => (message_length, message_buffer)
  | contextual_message :: rest, message_length, message_buffer =>
    if message_length + contextual_message.utf8ByteSize > message_limit_chars then
      (message_length, message_buffer)
    else
      build_message_loop message_limit_chars rest
        (message_length + contextual_message.utf8ByteSize)
        (contextual_message ++ message_buffer)

/-- `build_message` from the source.  The source reads the global
`ROADMAP_CONFIG`; here the configuration is an explicit parameter (the global
is passed at the call sites below). -/
def build_message (config : RoadmapConfig) (message : String)
    (context : List String) (system_message : ChatCompletionMessage) :
    List ChatCompletionMessage :=
  let result := build_message_loop config.message_limit_chars
    (context.take config.context_length) message.utf8ByteSize message
  [system_message, user_message result.2]

/-- The content of the user message produced by `build_message`: the final
`message_buffer`. -/
def user_buffer (config : RoadmapConfig) (message : String)
    (context : List String) : String :=
  (build_message_loop config.message_limit_chars
    (context.take config.context_length) message.utf8ByteSize message).2

/-- The contextual messages the loop of `build_message` accepts, in iteration
order: entries are taken as long as the running byte count stays within
`message_limit_chars`, and the walk stops at the first entry that would
overflow. -/
def accepted_context (message_limit_chars : Nat) :
    List String → Nat → List String
  | [], _ => []
  | contextual_message :: rest, message_length =>
    if message_length + contextual_message.utf8ByteSize > message_limit_chars then
      []
    else
      contextual_message ::
        accepted_context message_limit_chars rest
          (message_length + contextual_message.utf8ByteSize)

/-- Concatenation of a list of strings in reverse order, in front of a final
string: `reverse_concat [a, b, c] m = c ++ b ++ a ++ m`. -/
def reverse_concat (accepted : List String) (message : String) : String :=
  accepted.reverse.foldr (fun s acc => s ++ acc) message

/-- Spec-words variant of the context loop, for comparison with
`build_message_loop`: §4.1 of the spec states the counter holds the
*character* length, so this variant budgets with `String.length` where the
source's loop budgets with Rust `String::len` (UTF-8 bytes). -/
def build_message_loop_chars (message_limit_chars : Nat) :
    List String → Nat → String → Nat × String
  | [], message_length, message_buffer => (message_length, message_buffer)
  | contextual_message :: rest, message_length, message_buffer =>
    if message_length + contextual_message.length > message_limit_chars then
      (message_length, message_buffer)
    else
      build_message_loop_chars message_limit_chars rest
        (message_length + contextual_message.length)
        (contextual_message ++ message_buffer)

/-- The user-message content the spec-words (character-budget) variant would
produce. -/
def user_buffer_chars (config : RoadmapConfig) (message : String)
    (context : List String) : String :=
  (build_message_loop_chars config.message_limit_chars
    (context.take config.context_length) message.length message).2

/-!
### JSON deserialization

Modelled from the spec: the classifier deserializes the upstream textual
content with the external `serde_json` crate (not part of this repository's
`src/`) into the derived-`Deserialize` struct `RequestingRoadmap`.  Per the
spec this is a "strict JSON object with required `reason` string and
`is_roadmap` boolean fields"; malformed JSON is a hard failure.  The model
below is a JSON value grammar, a recursive-descent text parser (strict: the
whole input must be consumed up to trailing whitespace), and a decoder that
requires the two fields, with other fields permitted.
-/

/-- A JSON value.  Numbers are kept as their raw text: no claim depends on
numeric semantics. -/
inductive Json where
  | null
  | bool (b : Bool)
  | num (raw : String)
  | str (s : String)
  | arr (items : List Json)
  | obj (fields : List (String × Json))

/-- JSON whitespace. -/
def jsonWs (c : Char) : Bool :=
  c = ' ' || c = '\n' || c = '\t' || c = '\r'

/-- Drop leading JSON whitespace. -/
def skipWs : List Char → List Char
  | [] => []
  | c :: cs => if jsonWs c then skipWs cs else c :: cs

/-- Value of a hexadecimal digit. -/
def hexVal (c : Char) : Option Nat :=
  if '0' ≤ c ∧ c ≤ '9' then some (c.toNat - '0'.toNat)
  else if 'a' ≤ c ∧ c ≤ 'f' then some (c.toNat - 'a'.toNat + 10)
  else if 'A' ≤ c ∧ c ≤ 'F' then some (c.toNat - 'A'.toNat + 10)
  else none

/-- Parse the body of a JSON string literal after the opening quote, up to and
including the closing quote; returns the decoded string and the remaining
input.  Handles the standard escapes and `\uXXXX`. -/
def parseStringBody : List Char → Option (String × List Char)
  | [] => none
  | '"' :: rest => some ("", rest)
  | '\\' :: 'u' :: h1 :: h2 :: h3 :: h4 :: rest =>
    match hexVal h1, hexVal h2, hexVal h3, hexVal h4 with
    | some a, some b, some c, some d =>
      (parseStringBody rest).map fun p =>
        (String.singleton (Char.ofNat (((a * 16 + b) * 16 + c) * 16 + d)) ++ p.1, p.2)
    | _, _, _, _ => none
  | '\\' :: e :: rest =>
    let decoded : Option Char :=
      if e = '"' then some '"'
      else if e = '\\' then some '\\'
      else if e = '/' then some '/'
      else if e = 'n' then some '\n'
      else if e = 't' then some '\t'
      else if e = 'r' then some '\r'
      else if e = 'b' then some '\x08'
      else if e = 'f' then some '\x0c'
      else none
    match decoded with
    | some c => (parseStringBody rest).map fun p => (String.singleton c ++ p.1, p.2)
    | none => none
  | c :: rest =>
    (parseStringBody rest).map fun p => (String.singleton c ++ p.1, p.2)

/-- Characters a JSON number token may contain. -/
def jsonNumChar (c : Char) : Bool :=
  c.isDigit || c = '-' || c = '+' || c = '.' || c = 'e' || c = 'E'

/-- Parse a JSON number token: the maximal run of number characters, which
must contain at least one digit; kept as raw text. -/
def parseNumber (cs : List Char) : Option (String × List Char) :=
  let run := cs.takeWhile jsonNumChar
  if run.any Char.isDigit then
    some (String.mk run, cs.dropWhile jsonNumChar)
  else
    none

/-- Strip an expected literal (e.g. the `rue` of `true`) from the input. -/
def stripLit : List Char → List Char → Option (List Char)
  | [], cs => some cs
  | _ :: _, [] => none
  | e :: es, c :: cs => if c = e then stripLit es cs else none

mutual

/-- Parse one JSON value (fuel-indexed recursive descent). -/
def parseValue : Nat → List Char → Option (Json × List Char)
  | 0, _ => none
  | fuel + 1, cs =>
    match skipWs cs with
    | [] => none
    | c :: rest =>
      if c = '"' then
        (parseStringBody rest).map fun p => (Json.str p.1, p.2)
      else if c = 't' then
        (stripLit ['r', 'u', 'e'] rest).map fun r => (Json.bool true, r)
      else if c = 'f' then
        (stripLit ['a', 'l', 's', 'e'] rest).map fun r => (Json.bool false, r)
      else if c = 'n' then
        (stripLit ['u', 'l', 'l'] rest).map fun r => (Json.null, r)
      else if c = '[' then
        match skipWs rest with
        | ']' :: rest2 => some (Json.arr [], rest2)
        | cs2 => (parseArrayItems fuel cs2).map fun p => (Json.arr p.1, p.2)
      else if c = '\x7b' then
        match skipWs rest with
        | '\x7d' :: rest2 => some (Json.obj [], rest2)
        | cs2 => (parseObjectItems fuel cs2).map fun p => (Json.obj p.1, p.2)
      else
        (parseNumber (c :: rest)).map fun p => (Json.num p.1, p.2)

/-- Parse the comma-separated items of a non-empty JSON array, up to and
including the closing bracket. -/
def parseArrayItems : Nat → List Char → Option (List Json × List Char)
  | 0, _ => none
  | fuel + 1, cs =>
    match parseValue fuel cs with
    | none => none
    | some (j, rest) =>
      match skipWs rest with
      | ',' :: rest2 =>
        (parseArrayItems fuel rest2).map fun p => (j :: p.1, p.2)
      | ']' :: rest2 => some ([j], rest2)
      | _ => none

/-- Parse the comma-separated `"key": value` fields of a non-empty JSON
object, up to and including the closing brace. -/
def parseObjectItems : Nat → List Char → Option (List (String × Json) × List Char)
  | 0, _ => none
  | fuel + 1, cs =>
    match skipWs cs with
    | '"' :: rest =>
      match parseStringBody rest with
      | none => none
      | some (key, rest2) =>
        match skipWs rest2 with
        | ':' :: rest3 =>
          match parseValue fuel rest3 with
          | none => none
          | some (v, rest4) =>
            match skipWs rest4 with
            | ',' :: rest5 =>
              (parseObjectItems fuel rest5).map fun p => ((key, v) :: p.1, p.2)
            | '\x7d' :: rest5 => some ([(key, v)], rest5)
            | _ => none
        | _ => none
    | _ => none

end

/-- Parse a whole string as one JSON value; strict, as `serde_json::from_str`
is: anything but trailing whitespace after the value is an error. -/
def parseJson (s : String) : Option Json :=
  match parseValue (s.length + 1) s.data with
  | none => none
  | some (j, rest) => if (skipWs rest).isEmpty then some j else none

/-- First value bound to `key` in a JSON object's field list. -/
def Json.lookupField (key : String) : List (String × Json) → Option Json
  | [] => none
  | (k, v) :: rest => if k = key then some v else Json.lookupField key rest

/-- `RequestingRoadmap` from the source: the intent judgment deserialized from
the classifier's upstream reply. -/
structure RequestingRoadmap where
  reason : String
  is_roadmap : Bool
deriving DecidableEq, Repr

/-- `RoadmapProvided` from the source: the generated artifact wrapping the
reply text. -/
structure RoadmapProvided where
  roadmap : String
deriving DecidableEq, Repr

/-- Decode a JSON value into `RequestingRoadmap`: requires an object carrying
a `reason` string field and an `is_roadmap` boolean field (derived serde
deserializers permit additional fields). -/
def RequestingRoadmap.fromJson : Json → Option RequestingRoadmap
  | Json.obj fields =>
    match Json.lookupField "reason" fields, Json.lookupField "is_roadmap" fields with
    | some (Json.str r), some (Json.bool b) => some ⟨r, b⟩
    | _, _ => none
  | _ => none

/-- `serde_json::from_str::<RequestingRoadmap>`: parse the text as JSON, then
decode. -/
def parse_requesting_roadmap (s : String) : Option RequestingRoadmap :=
  (parseJson s).bind RequestingRoadmap.fromJson

/-- The shape §4.2 of the spec requires of the classifier's upstream content
once parsed: a JSON object with the required `reason` string and `is_roadmap`
boolean fields. -/
def Json.judgmentShape : Json → Prop
  | Json.obj fields =>
    ∃ r b, Json.lookupField "reason" fields = some (Json.str r) ∧
      Json.lookupField "is_roadmap" fields = some (Json.bool b)
  | _ => False

/-- The errors the two operations produce, one constructor per failure source
in the source code: the propagated transport error (`create().await?`), the
`bail!("No reply from ChatGPT")` with its message, and the propagated
`serde_json` parse error. -/
inductive RoadmapError where
  | upstreamError (e : OpenAiError)
  | emptyReply (message : String)
  | malformed
deriving DecidableEq, Repr

/-- The three error kinds of the spec's §7. -/
inductive ErrorKind where
  | upstreamError
  | upstreamEmptyReply
  | malformedResponse
deriving DecidableEq, Repr

/-- The spec-§7 kind of an error value. -/
def RoadmapError.kind : RoadmapError → ErrorKind
  | RoadmapError.upstreamError _ => ErrorKind.upstreamError
  | RoadmapError.emptyReply _ => ErrorKind.upstreamEmptyReply
  | RoadmapError.malformed => ErrorKind.malformedResponse

/-- Outcome of running one of the fallible operations: a success, an error
result (`anyhow::Result::Err`), or a panic (the `.unwrap()` on the first
choice when `choices` is empty). -/
inductive RunResult (α : Type) where
  | ok (value : α)
  | err (error : RoadmapError)
  | panicked
deriving DecidableEq, Repr

/-- The upstream chat-completion service (external collaborator): takes the
model identifier and the ordered messages, returns the completion or a
transport error. -/
def CompletionService : Type :=
  String → List ChatCompletionMessage → Except OpenAiError ChatCompletion

/-- `is_message_roadmap_request` from the source: build the detection message
set, submit it for model `"gpt-4o-mini"`, unwrap the first choice (a panic
when there is none), fail with the `bail!` message when its content is
absent, and otherwise deserialize the content as `RequestingRoadmap`. -/
def is_message_roadmap_request (service : CompletionService)
    (message : String) (context : List String) : RunResult RequestingRoadmap :=
  match service "gpt-4o-mini"
      (build_message ROADMAP_CONFIG message context system_message_detection) with
  | Except.error e => RunResult.err (RoadmapError.upstreamError e)
  | Except.ok chat_completion =>
    match chat_completion.choices.head? with
    | none => RunResult.panicked
    | some choice =>
      match choice.message.content with
      | some content =>
        match parse_requesting_roadmap content with
        | some judgment => RunResult.ok judgment
        | none => RunResult.err RoadmapError.malformed
      | none => RunResult.err (RoadmapError.emptyReply "No reply from ChatGPT")

/-- `create_roadmap` from the source: build the creation message set, submit
it for model `"gpt-4o-mini"`, unwrap the first choice (a panic when there is
none), fail with the `bail!` message when its content is absent, and otherwise
wrap the content verbatim as `RoadmapProvided`. -/
def create_roadmap (service : CompletionService)
    (message : String) (context : List String) : RunResult RoadmapProvided :=
  match service "gpt-4o-mini"
      (build_message ROADMAP_CONFIG message context system_message_creation) with
  | Except.error e => RunResult.err (RoadmapError.upstreamError e)
  | Except.ok chat_completion =>
    match chat_completion.choices.head? with
    | none => RunResult.panicked
    | some choice =>
      match choice.message.content with
      | some content => RunResult.ok ⟨content⟩
      | none => RunResult.err (RoadmapError.emptyReply "No reply from ChatGPT")

/-!
### Helper lemmas
-/

/-- UTF-8 byte length is additive under string concatenation. -/
theorem utf8ByteSize_append (a b : String) :
    (a ++ b).utf8ByteSize = a.utf8ByteSize + b.utf8ByteSize := by
  cases a with
  | mk da =>
    cases b with
    | mk db =>
      show String.utf8ByteSize ⟨da ++ db⟩ = _
      simp

/-- Prepending the head to the final string commutes with `reverse_concat`. -/
theorem reverse_concat_cons (c : String) (l : List String) (buf : String) :
    reverse_concat (c :: l) buf = reverse_concat l (c ++ buf) := by
  simp [reverse_concat, List.foldr_append]

/-- Loop invariant: when the counter equals the buffer's byte length, it still
does after the loop. -/
theorem build_message_loop_fst_eq (limit : Nat) (ctx : List String) :
    ∀ (len : Nat) (buf : String), len = buf.utf8ByteSize →
      (build_message_loop limit ctx len buf).1 =
        (build_message_loop limit ctx len buf).2.utf8ByteSize := by
  induction ctx with
  | nil => intro len buf h; simpa [build_message_loop] using h
  | cons c rest ih =>
    intro len buf h
    by_cases hov : len + c.utf8ByteSize > limit
    · simpa [build_message_loop, hov] using h
    · simpa [build_message_loop, hov] using
        ih (len + c.utf8ByteSize) (c ++ buf) (by rw [utf8ByteSize_append, h]; omega)

/-- Loop invariant: the counter never exceeds the limit once it starts below
it. -/
theorem build_message_loop_fst_le (limit : Nat) (ctx : List String) :
    ∀ (len : Nat) (buf : String), len ≤ limit →
      (build_message_loop limit ctx len buf).1 ≤ limit := by
  induction ctx with
  | nil => intro len buf h; simpa [build_message_loop] using h
  | cons c rest ih =>
    intro len buf h
    by_cases hov : len + c.utf8ByteSize > limit
    · simpa [build_message_loop, hov] using h
    · simpa [build_message_loop, hov] using
        ih (len + c.utf8ByteSize) (c ++ buf) (by omega)

/-- The final buffer is the accepted context, concatenated in
reverse-of-iteration order, in front of the initial buffer. -/
theorem build_message_loop_snd_eq (limit : Nat) (ctx : List String) :
    ∀ (len : Nat) (buf : String),
      (build_message_loop limit ctx len buf).2 =
        reverse_concat (accepted_context limit ctx len) buf := by
  induction ctx with
  | nil => intro len buf; simp [build_message_loop, accepted_context, reverse_concat]
  | cons c rest ih =>
    intro len buf
    by_cases hov : len + c.utf8ByteSize > limit
    · simp [build_message_loop, accepted_context, hov, reverse_concat]
    · simp [build_message_loop, accepted_context, hov, reverse_concat_cons, ih]

/-- `RequestingRoadmap.fromJson` succeeds exactly on JSON values of the
required shape: an object with a `reason` string field and an `is_roadmap`
boolean field. -/
theorem fromJson_some_iff_shape (j : Json) :
    (∃ x, RequestingRoadmap.fromJson j = some x) ↔ j.judgmentShape := by
  cases j with
  | obj fields =>
    simp only [RequestingRoadmap.fromJson, Json.judgmentShape]
    rcases hr : Json.lookupField "reason" fields with _ | jr <;>
      rcases hb : Json.lookupField "is_roadmap" fields with _ | jb
    · simp
    · simp
    · cases jr <;> simp
    · cases jr <;> cases jb <;> simp
  | null => simp [RequestingRoadmap.fromJson, Json.judgmentShape]
  | bool b => simp [RequestingRoadmap.fromJson, Json.judgmentShape]
  | num raw => simp [RequestingRoadmap.fromJson, Json.judgmentShape]
  | str s => simp [RequestingRoadmap.fromJson, Json.judgmentShape]
  | arr items => simp [RequestingRoadmap.fromJson, Json.judgmentShape]

/-!
### Claims about the message builder
-/

/-- C1: for every message, context list and system instruction,
`build_message` returns exactly two messages — the given system instruction
first, then one user-role message whose content is the accepted context
prefix concatenated in reverse-of-iteration order followed by the original
message; in particular with message `"hi"`, context `["A", "B", "C"]`,
`context_length = 3` and `message_limit_chars = 10` the user buffer is
`"CBAhi"`. -/
theorem c1_build_message_shape (config : RoadmapConfig) (message : String)
    (context : List String) (system_message : ChatCompletionMessage) :
    build_message config message context system_message =
      [system_message,
       user_message (reverse_concat
         (accepted_context config.message_limit_chars
           (context.take config.context_length) message.utf8ByteSize)
         message)] ∧
    user_buffer ⟨3, 10⟩ "hi" ["A", "B", "C"] = "CBAhi" := by
  refine ⟨?_, by decide⟩
  simp [build_message, build_message_loop_snd_eq]

/-- C2 (counterexample): the running length counter is not the character
count.  With message `"é"` (one character, two UTF-8 bytes) and
`message_limit_chars = 2`, the counter starts at 2 while one character has
been accumulated, so the one-byte entry `"A"` is rejected — whereas
character-based budgeting (the spec's words) would accept it. -/
theorem c2_counterexample :
    (build_message_loop 2 ["A"] ("é".utf8ByteSize) "é").1 = 2 ∧
    ("é" : String).length = 1 ∧
    user_buffer ⟨3, 2⟩ "é" ["A"] = "é" ∧
    user_buffer_chars ⟨3, 2⟩ "é" ["A"] = "Aé" ∧
    user_buffer ⟨3, 2⟩ "é" ["A"] ≠ user_buffer_chars ⟨3, 2⟩ "é" ["A"] := by
  refine ⟨rfl, rfl, rfl, rfl, by decide⟩

/-- C2 (amended): the running length counter equals the number of UTF-8
bytes (Rust `String::len`) of the text accumulated so far — the budget
comparison against `message_limit_chars` is performed in bytes, which
coincides with the character count only for ASCII text. -/
theorem c2_running_length_bytes (limit : Nat) (ctx : List String) (len : Nat)
    (buf : String) (h : len = buf.utf8ByteSize) :
    (build_message_loop limit ctx len buf).1 =
      (build_message_loop limit ctx len buf).2.utf8ByteSize ∧
    ∀ (config : RoadmapConfig) (message : String) (context : List String),
      (build_message_loop config.message_limit_chars
        (context.take config.context_length) message.utf8ByteSize message).1 =
        (user_buffer config message context).utf8ByteSize := by
  refine ⟨build_message_loop_fst_eq limit ctx len buf h, ?_⟩
  intro config message context
  exact build_message_loop_fst_eq config.message_limit_chars
    (context.take config.context_length) message.utf8ByteSize message rfl

/-- Witness for `c2_running_length_bytes` at a concrete input. -/
theorem c2_running_length_bytes_witness :
    (2 : Nat) = ("hi" : String).utf8ByteSize ∧
    (build_message_loop 10 ["A"] 2 "hi").1 =
      (build_message_loop 10 ["A"] 2 "hi").2.utf8ByteSize :=
  ⟨by decide, (c2_running_length_bytes 10 ["A"] 2 "hi" (by decide)).1⟩

/-- C3: the context walk terminates at the first entry for which
`running_length + entry.length` strictly exceeds `message_limit_chars`
(whatever the remaining entries are — no skip-and-continue), an entry that
brings the total exactly to the limit is still accepted, and in particular
with message `"hi"`, context `["A", "B", "C"]` and `message_limit_chars = 3`
only `"A"` is added, so the buffer is `"Ahi"`. -/
theorem c3_stops_at_first_overflow (limit len : Nat) (c buf : String)
    (rest : List String) :
    (len + c.utf8ByteSize > limit →
      build_message_loop limit (c :: rest) len buf = (len, buf)) ∧
    (len + c.utf8ByteSize ≤ limit →
      build_message_loop limit (c :: rest) len buf =
        build_message_loop limit rest (len + c.utf8ByteSize) (c ++ buf)) ∧
    user_buffer ⟨3, 3⟩ "hi" ["A", "B", "C"] = "Ahi" := by
  refine ⟨?_, ?_, by decide⟩
  · intro h
    simp [build_message_loop, h]
  · intro h
    simp [build_message_loop, Nat.not_lt.mpr h]

/-- Witness for `c3_stops_at_first_overflow` at concrete inputs: a first
entry that overflows stops the loop with the remaining context untouched; a
first entry that lands exactly on the limit is accepted. -/
theorem c3_stops_at_first_overflow_witness :
    build_message_loop 3 ["AB", "C"] 2 "hi" = (2, "hi") ∧
    build_message_loop 3 ["A", "C"] 2 "hi" =
      build_message_loop 3 ["C"] (2 + ("A" : String).utf8ByteSize) ("A" ++ "hi") :=
  ⟨(c3_stops_at_first_overflow 3 2 "AB" "hi" ["C"]).1 (by decide),
   (c3_stops_at_first_overflow 3 2 "A" "hi" ["C"]).2.1 (by decide)⟩

/-- C4: when the first context entry's length exceeds
`message_limit_chars - len(message)`, the user buffer is the original
message with no context text added. -/
theorem c4_oversized_first_entry (config : RoadmapConfig) (message c : String)
    (rest : List String)
    (h : c.utf8ByteSize > config.message_limit_chars - message.utf8ByteSize) :
    user_buffer config message (c :: rest) = message := by
  unfold user_buffer
  cases hn : config.context_length with
  | zero => simp [build_message_loop]
  | succ n =>
    have hgt : message.utf8ByteSize + c.utf8ByteSize > config.message_limit_chars := by
      omega
    simp [List.take_succ_cons, build_message_loop, hgt]

/-- Witness for `c4_oversized_first_entry` at a concrete input. -/
theorem c4_oversized_first_entry_witness :
    ("XYZ" : String).utf8ByteSize >
      (⟨3, 4⟩ : RoadmapConfig).message_limit_chars - ("hi" : String).utf8ByteSize ∧
    user_buffer ⟨3, 4⟩ "hi" ["XYZ", "A"] = "hi" :=
  ⟨by decide, c4_oversized_first_entry ⟨3, 4⟩ "hi" "XYZ" ["A"] (by decide)⟩

/-- C10: when the message fits the budget, the produced user buffer stays
within `message_limit_chars`; the loop keeps `running_length` at most the
limit, and `running_length` equals the buffer's length throughout (both in
UTF-8 bytes, the unit of Rust `String::len`). -/
theorem c10_buffer_within_limit (config : RoadmapConfig) (message : String)
    (context : List String)
    (h : message.utf8ByteSize ≤ config.message_limit_chars) :
    (user_buffer config message context).utf8ByteSize ≤ config.message_limit_chars ∧
    (build_message_loop config.message_limit_chars
      (context.take config.context_length) message.utf8ByteSize message).1 ≤
      config.message_limit_chars ∧
    (build_message_loop config.message_limit_chars
      (context.take config.context_length) message.utf8ByteSize message).1 =
      (user_buffer config message context).utf8ByteSize := by
  have h1 := build_message_loop_fst_le config.message_limit_chars
    (context.take config.context_length) message.utf8ByteSize message h
  have h2 := build_message_loop_fst_eq config.message_limit_chars
    (context.take config.context_length) message.utf8ByteSize message rfl
  unfold user_buffer
  exact ⟨h2 ▸ h1, h1, h2⟩

/-- Witness for `c10_buffer_within_limit` at a concrete input. -/
theorem c10_buffer_within_limit_witness :
    ("hi" : String).utf8ByteSize ≤ (⟨3, 10⟩ : RoadmapConfig).message_limit_chars ∧
    (user_buffer ⟨3, 10⟩ "hi" ["A", "B", "C"]).utf8ByteSize ≤ 10 :=
  ⟨by decide, (c10_buffer_within_limit ⟨3, 10⟩ "hi" ["A", "B", "C"] (by decide)).1⟩

/-!
### Claims about the classifier and the generator
-/

/-- C5: when the upstream reply's first choice has no textual content, both
`is_message_roadmap_request` and `create_roadmap` return the failed result of
kind `UpstreamEmptyReply` (the `bail!("No reply from ChatGPT")`), not a
success. -/
theorem c5_empty_content_fails (service : CompletionService) (message : String)
    (context : List String) (cc : ChatCompletion) (choice : ChatCompletionChoice)
    (hs : ∀ model msgs, service model msgs = Except.ok cc)
    (hc : cc.choices.head? = some choice)
    (hnone : choice.message.content = none) :
    is_message_roadmap_request service message context =
      RunResult.err (RoadmapError.emptyReply "No reply from ChatGPT") ∧
    create_roadmap service message context =
      RunResult.err (RoadmapError.emptyReply "No reply from ChatGPT") ∧
    (RoadmapError.emptyReply "No reply from ChatGPT").kind =
      ErrorKind.upstreamEmptyReply := by
  simp [is_message_roadmap_request, create_roadmap, hs, hc, hnone, RoadmapError.kind]

/-- Witness for `c5_empty_content_fails`: a service whose reply's only choice
carries no content. -/
theorem c5_empty_content_fails_witness :
    is_message_roadmap_request
      (fun _ _ => Except.ok
        ⟨[⟨⟨ChatCompletionMessageRole.assistant, none, none, none⟩⟩]⟩) "hi" [] =
      RunResult.err (RoadmapError.emptyReply "No reply from ChatGPT") ∧
    create_roadmap
      (fun _ _ => Except.ok
        ⟨[⟨⟨ChatCompletionMessageRole.assistant, none, none, none⟩⟩]⟩) "hi" [] =
      RunResult.err (RoadmapError.emptyReply "No reply from ChatGPT") :=
  ⟨(c5_empty_content_fails
      (fun _ _ => Except.ok
        ⟨[⟨⟨ChatCompletionMessageRole.assistant, none, none, none⟩⟩]⟩) "hi" []
      ⟨[⟨⟨ChatCompletionMessageRole.assistant, none, none, none⟩⟩]⟩
      ⟨⟨ChatCompletionMessageRole.assistant, none, none, none⟩⟩
      (fun _ _ => rfl) rfl rfl).1,
   (c5_empty_content_fails
      (fun _ _ => Except.ok
        ⟨[⟨⟨ChatCompletionMessageRole.assistant, none, none, none⟩⟩]⟩) "hi" []
      ⟨[⟨⟨ChatCompletionMessageRole.assistant, none, none, none⟩⟩]⟩
      ⟨⟨ChatCompletionMessageRole.assistant, none, none, none⟩⟩
      (fun _ _ => rfl) rfl rfl).2.1⟩

/-- C6: on upstream textual content `s`, the classifier returns the parsed
`RequestingRoadmap` exactly when `s` is a JSON object with the required
`reason` string and `is_roadmap` boolean fields, and returns the
`MalformedResponse` failure otherwise; in particular the spec's positive
example parses to `⟨"user asked for a plan", true⟩` and `"not json"` does
not parse. -/
theorem c6_classify_parses_judgment (service : CompletionService)
    (message : String) (context : List String) (cc : ChatCompletion)
    (choice : ChatCompletionChoice) (s : String)
    (hs : ∀ model msgs, service model msgs = Except.ok cc)
    (hc : cc.choices.head? = some choice)
    (hcontent : choice.message.content = some s) :
    (∀ judgment : RequestingRoadmap,
      is_message_roadmap_request service message context = RunResult.ok judgment ↔
        parse_requesting_roadmap s = some judgment) ∧
    ((∃ j, parseJson s = some j ∧ j.judgmentShape) ↔
      ∃ judgment, is_message_roadmap_request service message context =
        RunResult.ok judgment) ∧
    (parse_requesting_roadmap s = none →
      is_message_roadmap_request service message context =
        RunResult.err RoadmapError.malformed) ∧
    RoadmapError.malformed.kind = ErrorKind.malformedResponse ∧
    parse_requesting_roadmap
      "\x7b\"reason\":\"user asked for a plan\",\"is_roadmap\":true\x7d" =
      some ⟨"user asked for a plan", true⟩ ∧
    parse_requesting_roadmap "not json" = none := by
  refine ⟨?_, ?_, ?_, rfl, by decide, by decide⟩
  · intro judgment
    rcases hp : parse_requesting_roadmap s with _ | j <;>
      simp [is_message_roadmap_request, hs, hc, hcontent, hp]
  · rcases hps : parseJson s with _ | jv
    · simp [is_message_roadmap_request, hs, hc, hcontent,
        parse_requesting_roadmap, hps]
    · have hshape := fromJson_some_iff_shape jv
      rcases hf : RequestingRoadmap.fromJson jv with _ | x
      · simp only [hf] at hshape
        simp [is_message_roadmap_request, hs, hc, hcontent,
          parse_requesting_roadmap, hps, hf, hshape.symm]
      · simp only [hf] at hshape
        simp [is_message_roadmap_request, hs, hc, hcontent,
          parse_requesting_roadmap, hps, hf, hshape.symm]
  · intro hp
    simp [is_message_roadmap_request, hs, hc, hcontent, hp]

/-- Witness for `c6_classify_parses_judgment`: a service replying with the
spec's positive JSON example classifies successfully. -/
theorem c6_classify_parses_judgment_witness :
    is_message_roadmap_request
      (fun _ _ => Except.ok
        ⟨[⟨⟨ChatCompletionMessageRole.assistant,
          some "\x7b\"reason\":\"user asked for a plan\",\"is_roadmap\":true\x7d",
          none, none⟩⟩]⟩) "hi" [] =
      RunResult.ok ⟨"user asked for a plan", true⟩ :=
  ((c6_classify_parses_judgment
      (fun _ _ => Except.ok
        ⟨[⟨⟨ChatCompletionMessageRole.assistant,
          some "\x7b\"reason\":\"user asked for a plan\",\"is_roadmap\":true\x7d",
          none, none⟩⟩]⟩) "hi" []
      ⟨[⟨⟨ChatCompletionMessageRole.assistant,
        some "\x7b\"reason\":\"user asked for a plan\",\"is_roadmap\":true\x7d",
        none, none⟩⟩]⟩
      ⟨⟨ChatCompletionMessageRole.assistant,
        some "\x7b\"reason\":\"user asked for a plan\",\"is_roadmap\":true\x7d",
        none, none⟩⟩
      "\x7b\"reason\":\"user asked for a plan\",\"is_roadmap\":true\x7d"
      (fun _ _ => rfl) rfl rfl).1 ⟨"user asked for a plan", true⟩).mpr (by decide)

/-- C7: whenever the upstream reply's first choice has textual content `s`,
`create_roadmap` returns `RoadmapProvided` with `roadmap = s` verbatim — no
parsing or reinterpretation of the reply text. -/
theorem c7_generate_verbatim (service : CompletionService) (message : String)
    (context : List String) (cc : ChatCompletion) (choice : ChatCompletionChoice)
    (s : String)
    (hs : ∀ model msgs, service model msgs = Except.ok cc)
    (hc : cc.choices.head? = some choice)
    (hcontent : choice.message.content = some s) :
    create_roadmap service message context = RunResult.ok ⟨s⟩ := by
  simp [create_roadmap, hs, hc, hcontent]

/-- Witness for `c7_generate_verbatim`: the spec's example content
`"Step 1..."` is returned verbatim. -/
theorem c7_generate_verbatim_witness :
    create_roadmap
      (fun _ _ => Except.ok
        ⟨[⟨⟨ChatCompletionMessageRole.assistant, some "Step 1...", none, none⟩⟩]⟩)
      "hi" [] = RunResult.ok ⟨"Step 1..."⟩ :=
  c7_generate_verbatim
    (fun _ _ => Except.ok
      ⟨[⟨⟨ChatCompletionMessageRole.assistant, some "Step 1...", none, none⟩⟩]⟩)
    "hi" []
    ⟨[⟨⟨ChatCompletionMessageRole.assistant, some "Step 1...", none, none⟩⟩]⟩
    ⟨⟨ChatCompletionMessageRole.assistant, some "Step 1...", none, none⟩⟩
    "Step 1..." (fun _ _ => rfl) rfl rfl

/-- C8: the failed results of the two operations carry one of three mutually
distinguishable kinds — `UpstreamError`, `UpstreamEmptyReply`,
`MalformedResponse`: the kinds are pairwise distinct, errors of different
kinds are different values (so a caller can branch on the kind), every error
of the classifier carries one of the three kinds, and every error of the
generator carries one of the first two (it never parses JSON). -/
theorem c8_error_kinds (service : CompletionService) (message : String)
    (context : List String) :
    (ErrorKind.upstreamError ≠ ErrorKind.upstreamEmptyReply ∧
     ErrorKind.upstreamError ≠ ErrorKind.malformedResponse ∧
     ErrorKind.upstreamEmptyReply ≠ ErrorKind.malformedResponse) ∧
    (∀ e1 e2 : RoadmapError, e1.kind ≠ e2.kind → e1 ≠ e2) ∧
    (∀ e : RoadmapError,
      is_message_roadmap_request service message context = RunResult.err e →
        e.kind = ErrorKind.upstreamError ∨ e.kind = ErrorKind.upstreamEmptyReply ∨
        e.kind = ErrorKind.malformedResponse) ∧
    (∀ e : RoadmapError,
      create_roadmap service message context = RunResult.err e →
        e.kind = ErrorKind.upstreamError ∨ e.kind = ErrorKind.upstreamEmptyReply) := by
  refine ⟨⟨by decide, by decide, by decide⟩, ?_, ?_, ?_⟩
  · intro e1 e2 hk he
    exact hk (he ▸ rfl)
  · intro e _
    cases e with
    | upstreamError e' => exact Or.inl rfl
    | emptyReply m => exact Or.inr (Or.inl rfl)
    | malformed => exact Or.inr (Or.inr rfl)
  · intro e he
    unfold create_roadmap at he
    split at he
    · simp only [RunResult.err.injEq] at he
      exact Or.inl (he ▸ rfl)
    · split at he
      · exact absurd he (by simp)
      · split at he
        · exact absurd he (by simp)
        · simp only [RunResult.err.injEq] at he
          exact Or.inr (he ▸ rfl)

/-- Witness for `c8_error_kinds`: the empty-reply failure of the classifier
carries one of the three kinds. -/
theorem c8_error_kinds_witness :
    (RoadmapError.emptyReply "No reply from ChatGPT").kind =
        ErrorKind.upstreamError ∨
      (RoadmapError.emptyReply "No reply from ChatGPT").kind =
        ErrorKind.upstreamEmptyReply ∨
      (RoadmapError.emptyReply "No reply from ChatGPT").kind =
        ErrorKind.malformedResponse :=
  (c8_error_kinds
    (fun _ _ => Except.ok
      ⟨[⟨⟨ChatCompletionMessageRole.assistant, none, none, none⟩⟩]⟩) "hi" []).2.2.1
    (RoadmapError.emptyReply "No reply from ChatGPT") (by decide)

/-- C9: when the upstream reply's list of choices is empty, neither operation
returns a failed result — the unchecked `.unwrap()` of the first choice
panics, so the first-choice access is only safe when the service returns at
least one choice. -/
theorem c9_empty_choices_panic (service : CompletionService) (message : String)
    (context : List String) (cc : ChatCompletion)
    (hs : ∀ model msgs, service model msgs = Except.ok cc)
    (hempty : cc.choices = []) :
    is_message_roadmap_request service message context = RunResult.panicked ∧
    create_roadmap service message context = RunResult.panicked := by
  simp [is_message_roadmap_request, create_roadmap, hs, hempty]

/-- Witness for `c9_empty_choices_panic`: a service replying with no choices
makes both operations panic. -/
theorem c9_empty_choices_panic_witness :
    is_message_roadmap_request (fun _ _ => Except.ok ⟨[]⟩) "hi" [] =
      RunResult.panicked ∧
    create_roadmap (fun _ _ => Except.ok ⟨[]⟩) "hi" [] = RunResult.panicked :=
  c9_empty_choices_panic (fun _ _ => Except.ok ⟨[]⟩) "hi" [] ⟨[]⟩
    (fun _ _ => rfl) rfl
